import Mathlib

/-!
Verification development for the FunKeyLib menu engine (src/src/menu.cpp).

The definitions below are a shallow embedding of the navigation state
machine, the scroll animator, the system value probe initialisation and the
progress bar layout of `FK_RunMenu`, `init_menu_system_values` and
`draw_progress_bar`.  The model assumes the full feature build (every
HAS_MENU_* flag defined), which is the configuration the specification
describes; the zone registration order is the one of `init_menu_zones`.
C `int` values are modelled as `Int`, unsigned sizes as `Nat`.  The step
macros STEP_CHANGE_VOLUME and STEP_CHANGE_BRIGHTNESS and the return code
macros live in the header `menu.h`, which is not part of the sources; they
are kept as parameters (the specification uses step 10 in its scenarios)
and as an abstract result type with the three documented values.
-/

namespace FunKey

/-- Zone type tags, one per ENUM_MENU_TYPE case handled in menu.cpp. -/
inductive MenuType where
  | volume
  | brightness
  | save
  | load
  | aspectRatio
  | roRw
  | exitApp
  | usb
  | theme
  | launcher
  | powerdown
deriving DecidableEq, Repr

/-- Session result codes MENU_RETURN_OK, MENU_RETURN_EXIT, MENU_RETURN_ERROR. -/
inductive ReturnCode where
  | okRet
  | exitRet
  | errRet
deriving DecidableEq, Repr

/-- External set commands fired through popen by the Left and Right handlers. -/
inductive ShellCall where
  | setVolumeCmd (v : Int)
  | setBrightnessCmd (v : Int)
deriving DecidableEq, Repr

/-- External mutating commands fired by the Confirm handler
(Utils::executeRawPath for USB and launcher, exportCurrentLayout for theme,
popen for powerdown, system for the read-only or read-write switch). -/
inductive ExtAction where
  | usbToggle
  | themeExport
  | launcherSwitch
  | powerdownCmd
  | roRwCmd
deriving DecidableEq, Repr

/-- Mutable loop state of FK_RunMenu together with the static variables of
menu.cpp that the handlers read and write. -/
structure MenuState where
  menuItem : Nat
  prevItem : Nat
  scroll : Int
  startScroll : Int
  menuConfirmation : Bool
  screenRefresh : Bool
  stopMenuLoop : Bool
  returnCode : ReturnCode
  volumePercentage : Int
  brightnessPercentage : Int
  savestateSlot : Nat
  aspectRatio : Nat
  indexChooseLayout : Nat
  usbDataConnected : Bool
  usbSharing : Bool
  readWrite : Bool
deriving DecidableEq, Repr

/-- Static configuration of one menu session: the registered zone list
(idx_menus with nb_menu_zones entries) and the header constants. -/
structure MenuEnv where
  zones : List MenuType
  stepVolume : Int
  stepBrightness : Int
  nbAspectRatios : Nat
  nbLayouts : Nat
deriving DecidableEq, Repr

/-- MAX_SAVE_SLOTS from menu.cpp. -/
def maxSaveSlots : Nat := 9

/-- SCROLL_SPEED_PX from menu.cpp. -/
def scrollSpeedPx : Int := 30

/-- MENU_ZONE_HEIGHT from menu.cpp. -/
def menuZoneHeight : Int := 240

/-- Increment with wrap: menuItem++ followed by the reset to 0 when the
index reaches nb_menu_zones, as in the Down handler. -/
def nextIndexDown (n i : Nat) : Nat :=
  if i + 1 ≥ n then 0 else i + 1

/-- Decrement with wrap: menuItem-- followed by the reset to nb_menu_zones-1
when the index becomes negative, as in the Up handler. -/
def nextIndexUp (n i : Nat) : Nat :=
  if i = 0 then n - 1 else i - 1

/-- Decrement with wrap over n values, the pattern
x = (!x) ? (n - 1) : (x - 1) used for save slots, aspect ratio and theme. -/
def wrapPrev (n i : Nat) : Nat :=
  if i = 0 then n - 1 else i - 1

/-- Step a percentage down: the expression
(v < step) ? 0 : (v - step) of the Left handler for volume and brightness. -/
def percentStepDown (step v : Int) : Int :=
  if v < step then 0 else v - step

/-- Step a percentage up: the expression
(v > 100 - step) ? 100 : (v + step) of the Right handler. -/
def percentStepUp (step v : Int) : Int :=
  if v > 100 - step then 100 else v + step

/-- Zone tag at an index of the session zone list (idx_menus access). -/
def zoneAt (env : MenuEnv) (i : Nat) : MenuType :=
  env.zones.getD i MenuType.volume

/-- Down key handler (SDLK_d and SDLK_DOWN).  When USB sharing is active the
handler breaks before any assignment.  Otherwise it advances the index with
wrap, skips the USB zone when USB data is not connected (wrapping again),
starts a downward scroll, clears the confirmation flag and requests a
refresh. -/
def pressDown (env : MenuEnv) (s : MenuState) : MenuState :=
  if s.usbSharing then s
  else
    let m1 := nextIndexDown env.zones.length s.menuItem
    let m2 :=
      if zoneAt env m1 = MenuType.usb ∧ s.usbDataConnected = false then
        nextIndexDown env.zones.length m1
      else m1
    { s with
      menuItem := m2
      startScroll := 1
      menuConfirmation := false
      screenRefresh := true }

/-- Up key handler (SDLK_u and SDLK_UP), symmetric to the Down handler. -/
def pressUp (env : MenuEnv) (s : MenuState) : MenuState :=
  if s.usbSharing then s
  else
    let m1 := nextIndexUp env.zones.length s.menuItem
    let m2 :=
      if zoneAt env m1 = MenuType.usb ∧ s.usbDataConnected = false then
        nextIndexUp env.zones.length m1
      else m1
    { s with
      menuItem := m2
      startScroll := -1
      menuConfirmation := false
      screenRefresh := true }

/-- Escape and q key handler: ignored while USB sharing is active, otherwise
the loop is stopped (the return code is left at its current value). -/
def pressEscape (s : MenuState) : MenuState :=
  if s.usbSharing then s else { s with stopMenuLoop := true }

/-- SDL_QUIT event handler: stops the loop and sets the result code to
MENU_RETURN_EXIT, touching nothing else. -/
def handleQuit (s : MenuState) : MenuState :=
  { s with stopMenuLoop := true, returnCode := ReturnCode.exitRet }

/-- Cancel key handler (SDLK_b): clears a pending confirmation and requests
a refresh, otherwise does nothing. -/
def pressCancel (s : MenuState) : MenuState :=
  if s.menuConfirmation then
    { s with menuConfirmation := false, screenRefresh := true }
  else s

/-- Left key handler (SDLK_l and SDLK_LEFT).  For volume and brightness the
in memory percentage is recomputed first and the set command is then fired
with the new value; a popen failure (cmdOk = false) is only logged and does
not influence the state.  Save and load share the same slot variable.  The
second component lists the external set commands fired. -/
def pressLeft (env : MenuEnv) (cmdOk : Bool) (s : MenuState) :
    MenuState × List ShellCall :=
  match zoneAt env s.menuItem with
  | MenuType.volume =>
      let v := percentStepDown env.stepVolume s.volumePercentage
      ({ s with volumePercentage := v, screenRefresh := true },
       [ShellCall.setVolumeCmd v])
  | MenuType.brightness =>
      let v := percentStepDown env.stepBrightness s.brightnessPercentage
      ({ s with brightnessPercentage := v, screenRefresh := true },
       [ShellCall.setBrightnessCmd v])
  | MenuType.save =>
      ({ s with savestateSlot := wrapPrev maxSaveSlots s.savestateSlot,
                screenRefresh := true }, [])
  | MenuType.load =>
      ({ s with savestateSlot := wrapPrev maxSaveSlots s.savestateSlot,
                screenRefresh := true }, [])
  | MenuType.aspectRatio =>
      ({ s with aspectRatio := wrapPrev env.nbAspectRatios s.aspectRatio,
                screenRefresh := true }, [])
  | MenuType.theme =>
      ({ s with indexChooseLayout := wrapPrev env.nbLayouts s.indexChooseLayout,
                screenRefresh := true }, [])
  | _ => (s, [])

/-- Right key handler (SDLK_r and SDLK_RIGHT), symmetric to the Left
handler; slot, aspect ratio and theme indices advance modulo their counts. -/
def pressRight (env : MenuEnv) (cmdOk : Bool) (s : MenuState) :
    MenuState × List ShellCall :=
  match zoneAt env s.menuItem with
  | MenuType.volume =>
      let v := percentStepUp env.stepVolume s.volumePercentage
      ({ s with volumePercentage := v, screenRefresh := true },
       [ShellCall.setVolumeCmd v])
  | MenuType.brightness =>
      let v := percentStepUp env.stepBrightness s.brightnessPercentage
      ({ s with brightnessPercentage := v, screenRefresh := true },
       [ShellCall.setBrightnessCmd v])
  | MenuType.save =>
      ({ s with savestateSlot := (s.savestateSlot + 1) % maxSaveSlots,
                screenRefresh := true }, [])
  | MenuType.load =>
      ({ s with savestateSlot := (s.savestateSlot + 1) % maxSaveSlots,
                screenRefresh := true }, [])
  | MenuType.aspectRatio =>
      ({ s with aspectRatio := (s.aspectRatio + 1) % env.nbAspectRatios,
                screenRefresh := true }, [])
  | MenuType.theme =>
      ({ s with indexChooseLayout := (s.indexChooseLayout + 1) % env.nbLayouts,
                screenRefresh := true }, [])
  | _ => (s, [])

/-- Confirm key handler (SDLK_a and SDLK_RETURN).  Each zone with a side
effect checks menu_confirmation first: when it is set, the action runs
(usbOk models the Utils::executeRawPath result for the USB mount or
unmount, roOk models system(...) succeeding for the read-only or
read-write switch); when it is clear, the handler only sets the flag and
requests a refresh.  The powerdown branch of the source returns
MENU_RETURN_EXIT directly from FK_RunMenu; it is modelled as stopping the
loop with that result.  The second component lists the external mutating
commands fired. -/
def pressConfirm (env : MenuEnv) (usbOk roOk : Bool) (s : MenuState) :
    MenuState × List ExtAction :=
  match zoneAt env s.menuItem with
  | MenuType.save =>
      if s.menuConfirmation then
        ({ s with stopMenuLoop := true }, [])
      else
        ({ s with menuConfirmation := true, screenRefresh := true }, [])
  | MenuType.load =>
      if s.menuConfirmation then
        ({ s with stopMenuLoop := true }, [])
      else
        ({ s with menuConfirmation := true, screenRefresh := true }, [])
  | MenuType.usb =>
      if s.menuConfirmation then
        let s1 := if usbOk then { s with usbSharing := !s.usbSharing } else s
        ({ s1 with menuConfirmation := false, screenRefresh := true },
         [ExtAction.usbToggle])
      else
        ({ s with menuConfirmation := true, screenRefresh := true }, [])
  | MenuType.theme =>
      if s.menuConfirmation then
        ({ s with stopMenuLoop := true, returnCode := ReturnCode.exitRet },
         [ExtAction.themeExport])
      else
        ({ s with menuConfirmation := true, screenRefresh := true }, [])
  | MenuType.launcher =>
      if s.menuConfirmation then
        ({ s with stopMenuLoop := true, returnCode := ReturnCode.exitRet },
         [ExtAction.launcherSwitch])
      else
        ({ s with menuConfirmation := true, screenRefresh := true }, [])
  | MenuType.exitApp =>
      if s.menuConfirmation then
        ({ s with stopMenuLoop := true, returnCode := ReturnCode.exitRet }, [])
      else
        ({ s with menuConfirmation := true, screenRefresh := true }, [])
  | MenuType.powerdown =>
      if s.menuConfirmation then
        ({ s with stopMenuLoop := true, returnCode := ReturnCode.exitRet },
         [ExtAction.powerdownCmd])
      else
        ({ s with menuConfirmation := true, screenRefresh := true }, [])
  | MenuType.roRw =>
      if s.menuConfirmation then
        let s1 := if roOk then { s with readWrite := !s.readWrite } else s
        ({ s1 with menuConfirmation := false, screenRefresh := true },
         [ExtAction.roRwCmd])
      else
        ({ s with menuConfirmation := true, screenRefresh := true }, [])
  | _ => (s, [])

/-- Predicate on zone tags: the Confirm handler has a confirmation gated
branch for this zone (volume, brightness and aspect ratio fall through to
the empty else branch). -/
def requiresConfirmation : MenuType → Bool
  | MenuType.volume => false
  | MenuType.brightness => false
  | MenuType.aspectRatio => false
  | _ => true

/-- Scroll animator step of one loop frame: the two advance branches
scroll += MIN(SCROLL_SPEED_PX, MENU_ZONE_HEIGHT - scroll) and
scroll -= MIN(SCROLL_SPEED_PX, MENU_ZONE_HEIGHT + scroll), followed by the
commit when the magnitude reaches MENU_ZONE_HEIGHT. -/
def scrollTick (s : MenuState) : MenuState :=
  let s1 :=
    if 0 < s.scroll ∨ 0 < s.startScroll then
      { s with
        scroll := s.scroll + min scrollSpeedPx (menuZoneHeight - s.scroll)
        startScroll := 0
        screenRefresh := true }
    else if s.scroll < 0 ∨ s.startScroll < 0 then
      { s with
        scroll := s.scroll - min scrollSpeedPx (menuZoneHeight + s.scroll)
        startScroll := 0
        screenRefresh := true }
    else s
  if menuZoneHeight ≤ s1.scroll ∨ s1.scroll ≤ -menuZoneHeight then
    { s1 with prevItem := s1.menuItem, scroll := 0, screenRefresh := true }
  else s1

/-- Accumulator loop of atoi over the leading digit run of the string, the
behaviour of atoi on inputs whose first character is a digit (the only
inputs on which init_menu_system_values calls it). -/
def atoiLoop : List Char → Nat → Nat
  | [], acc => acc
  | c :: rest, acc =>
      if '0' ≤ c ∧ c ≤ '9' then atoiLoop rest (acc * 10 + (c.toNat - 48))
      else acc

/-- Value of atoi on a digit leading string. -/
def atoiInt (s : String) : Int :=
  Int.ofNat (atoiLoop s.data 0)

/-- System value probe read for volume or brightness in
init_menu_system_values: none models a popen failure; otherwise the first
character of the response buffer is checked to be a decimal digit and the
buffer is parsed with atoi, unclamped; every failure path stores the
default 50.  A response in which fgets stores nothing leaves the buffer
unspecified in C and is modelled by the default path. -/
def init_percentage (probe : Option String) : Int :=
  match probe with
  | none => 50
  | some res =>
      match res.data with
      | [] => 50
      | c :: _ => if c < '0' ∨ '9' < c then 50 else atoiInt res

/-- Numeric output of draw_progress_bar before any pixel is touched: the
clamped coordinates and sizes, the clamped bar count, the per bar geometry
and the number of full bars. -/
structure BarLayout where
  x : Nat
  y : Nat
  width : Nat
  height : Nat
  percentage : Nat
  nbBars : Nat
  barWidth : Nat
  barPadding : Nat
  nbFullBars : Nat
deriving DecidableEq, Repr

/-- Value computation of draw_progress_bar (menu.cpp lines 265 to 285) with
line_width = 1 and padding_bars_ratio = 3, on a destination surface of size
sw by sh. -/
def draw_progress_bar_calc (sw sh x y width height percentage nbBars : Nat) :
    BarLayout :=
  let lineWidth : Nat := 1
  let paddingRatio : Nat := 3
  let p := if percentage > 100 then 100 else percentage
  let x1 := if x > sw - 1 then sw - 1 else x
  let y1 := if y > sh - 1 then sh - 1 else y
  let w1 := if width < lineWidth * 2 + 1 then lineWidth * 2 + 1 else width
  let w2 := if w1 > sw - x1 - 1 then sw - x1 - 1 else w1
  let h1 := if height < lineWidth * 2 + 1 then lineWidth * 2 + 1 else height
  let h2 := if h1 > sh - y1 - 1 then sh - y1 - 1 else h1
  let nbBarsMax := (w2 * paddingRatio / (lineWidth * 2 + 1) + 1) / (paddingRatio + 1)
  let nb := if nbBars > nbBarsMax then nbBarsMax else nbBars
  let barWidth := (w2 / nb) * paddingRatio / (paddingRatio + 1) + 1
  let barPadding := barWidth / paddingRatio
  let nbFull := nb * p / 100
  ⟨x1, y1, w2, h2, p, nb, barWidth, barPadding, nbFull⟩

/-- Rectangles filled solid by the first drawing loop of draw_progress_bar,
as (x, y, w, h) tuples. -/
def solidBars (L : BarLayout) : List (Nat × Nat × Nat × Nat) :=
  (List.range L.nbFullBars).map fun i =>
    (L.x + i * (L.barWidth + L.barPadding), L.y, L.barWidth, L.height)

/-- Rectangle pairs of the second drawing loop of draw_progress_bar: the
outer gray rectangle and the inner white rectangle that together render one
hollow outlined bar. -/
def hollowBars (L : BarLayout) :
    List ((Nat × Nat × Nat × Nat) × (Nat × Nat × Nat × Nat)) :=
  (List.range (L.nbBars - L.nbFullBars)).map fun i =>
    ((L.x + i * (L.barWidth + L.barPadding) + L.nbFullBars * (L.barWidth + L.barPadding),
      L.y, L.barWidth, L.height),
     (L.x + i * (L.barWidth + L.barPadding) + 1 + L.nbFullBars * (L.barWidth + L.barPadding),
      L.y + 1, L.barWidth - 2, L.height - 2))

/-- Adjustment keys of the Left and Right handlers, paired with the popen
success flag of the external command the press fires. -/
inductive AdjustKey where
  | leftKey
  | rightKey
deriving DecidableEq, Repr

/-- One Left or Right press applied to the state, dropping the fired
commands. -/
def applyAdjust (env : MenuEnv) (s : MenuState) : AdjustKey × Bool → MenuState
  | (AdjustKey.leftKey, ok) => (pressLeft env ok s).1
  | (AdjustKey.rightKey, ok) => (pressRight env ok s).1

/-- Fold of a sequence of Left and Right presses with their popen outcomes. -/
def applyAdjustList (env : MenuEnv) (ks : List (AdjustKey × Bool))
    (s : MenuState) : MenuState :=
  ks.foldl (applyAdjust env) s

/-- Range invariant of claim C5: volume and brightness percentages stay in
[0, 100] and the save slot stays below MAX_SAVE_SLOTS. -/
def rangeInv (s : MenuState) : Prop :=
  0 ≤ s.volumePercentage ∧ s.volumePercentage ≤ 100 ∧
  0 ≤ s.brightnessPercentage ∧ s.brightnessPercentage ≤ 100 ∧
  s.savestateSlot < maxSaveSlots

instance (s : MenuState) : Decidable (rangeInv s) := by
  unfold rangeInv; infer_instance

/-- Zone list in the registration order of init_menu_zones with every
feature flag defined. -/
def sampleZones : List MenuType :=
  [MenuType.volume, MenuType.brightness, MenuType.save, MenuType.load,
   MenuType.aspectRatio, MenuType.roRw, MenuType.exitApp, MenuType.usb,
   MenuType.theme, MenuType.launcher, MenuType.powerdown]

/-- Sample session configuration used by the concrete witnesses: step 10
for volume and brightness as in the scenarios of the specification. -/
def sampleEnv : MenuEnv :=
  { zones := sampleZones
    stepVolume := 10
    stepBrightness := 10
    nbAspectRatios := 4
    nbLayouts := 3 }

/-- Sample loop state right after session start. -/
def baseState : MenuState :=
  { menuItem := 0
    prevItem := 0
    scroll := 0
    startScroll := 0
    menuConfirmation := false
    screenRefresh := true
    stopMenuLoop := false
    returnCode := ReturnCode.okRet
    volumePercentage := 50
    brightnessPercentage := 50
    savestateSlot := 0
    aspectRatio := 0
    indexChooseLayout := 0
    usbDataConnected := true
    usbSharing := false
    readWrite := false }

/-- Sample state whose selected zone is the Save zone. -/
def saveZoneState : MenuState := { baseState with menuItem := 2 }

/-- Sample state locked by an active USB share. -/
def usbLockedState : MenuState :=
  { baseState with usbSharing := true, menuItem := 7 }

/-- Sample state on the Volume zone with the volume at 40 percent. -/
def volZoneState : MenuState := { baseState with volumePercentage := 40 }

/-- Sample state on the last zone of the registration order. -/
def lastZoneState : MenuState := { baseState with menuItem := 10 }

/-- C7: an SDL_QUIT event stops the menu loop at once, whatever the
confirmation flag holds, and sets the session result to MENU_RETURN_EXIT,
the Exit class result, without touching any other state, so the result is
propagated and not swallowed. -/
theorem quit_signal_stops_loop_with_exit (s : MenuState) :
    (handleQuit s).stopMenuLoop = true ∧
    (handleQuit s).returnCode = ReturnCode.exitRet ∧
    (handleQuit s).menuConfirmation = s.menuConfirmation ∧
    handleQuit s = { s with stopMenuLoop := true,
                            returnCode := ReturnCode.exitRet } :=
  ⟨rfl, rfl, rfl, rfl⟩

/-- C9: while USB sharing is active the Down, Up and Escape handlers leave
the whole state unchanged: no index, scroll, confirmation or loop flag
moves. -/
theorem usb_sharing_locks_navigation (env : MenuEnv) (s : MenuState)
    (h : s.usbSharing = true) :
    pressDown env s = s ∧ pressUp env s = s ∧ pressEscape s = s := by
  simp [pressDown, pressUp, pressEscape, h]

/-- Witness for usb_sharing_locks_navigation at a concrete locked state. -/
theorem usb_sharing_locks_navigation_witness :
    pressDown sampleEnv usbLockedState = usbLockedState ∧
    pressUp sampleEnv usbLockedState = usbLockedState ∧
    pressEscape usbLockedState = usbLockedState :=
  usb_sharing_locks_navigation sampleEnv usbLockedState rfl

/-- C10: the startup probe stores the unclamped atoi parse when the output
starts with a digit, so the output 150 is stored as 150, above 100; a
following Right press with step 10 snaps the value to exactly 100, while a
Left press only subtracts one step, giving 140. -/
theorem init_parse_unclamped :
    init_percentage (some "150") = 150 ∧
    100 < init_percentage (some "150") ∧
    percentStepUp 10 150 = 100 ∧
    percentStepDown 10 150 = 140 := by
  refine ⟨?_, ?_, ?_, ?_⟩ <;> decide

/-- C8: when the volume or brightness query fails to run (popen gives no
stream) or its output does not begin with a decimal digit, the in memory
percentage is set to the fixed default 50. -/
theorem probe_failure_defaults_to_50 (res : String) (c : Char)
    (rest : List Char) (hres : res.data = c :: rest)
    (hc : c < '0' ∨ '9' < c) :
    init_percentage none = 50 ∧ init_percentage (some res) = 50 := by
  refine ⟨rfl, ?_⟩
  simp only [init_percentage, hres]
  rw [if_pos hc]

/-- Witness for probe_failure_defaults_to_50 on the output string x. -/
theorem probe_failure_defaults_to_50_witness :
    init_percentage none = 50 ∧ init_percentage (some "x") = 50 :=
  probe_failure_defaults_to_50 "x" 'x' [] (by decide) (by decide)

/-- C1: when the confirmation flag is clear on entry, the Confirm handler
fires no external mutating command, and the state either is unchanged (no
side effect zones) or changes only by raising the confirmation flag and the
refresh request (zones with a gated action); in particular no save, load,
USB toggle, theme apply, launcher switch, exit, powerdown or read-write
toggle happens. -/
theorem confirm_first_press_only_sets_flag (env : MenuEnv)
    (usbOk roOk : Bool) (s : MenuState) (h : s.menuConfirmation = false) :
    (pressConfirm env usbOk roOk s).2 = [] ∧
    (requiresConfirmation (zoneAt env s.menuItem) = true →
      (pressConfirm env usbOk roOk s).1 =
        { s with menuConfirmation := true, screenRefresh := true }) ∧
    (requiresConfirmation (zoneAt env s.menuItem) = false →
      (pressConfirm env usbOk roOk s).1 = s) := by
  rcases hz : zoneAt env s.menuItem <;>
    simp [pressConfirm, requiresConfirmation, hz, h]

/-- Witness for confirm_first_press_only_sets_flag on the Save zone. -/
theorem confirm_first_press_only_sets_flag_witness :
    (pressConfirm sampleEnv true true saveZoneState).2 = [] ∧
    (pressConfirm sampleEnv true true saveZoneState).1 =
      { saveZoneState with menuConfirmation := true,
                           screenRefresh := true } := by
  have h := confirm_first_press_only_sets_flag sampleEnv true true
    saveZoneState rfl
  exact ⟨h.1, h.2.1 rfl⟩

/-- Counterexample to C2 as stated: on the Volume zone with the volume at
40 and step 10, one Right press whose external command fails (popen gives
no stream, modelled by the false flag) still changes the in memory volume
from 40 to 50, so the value is not left unchanged on failure. -/
theorem volume_updates_despite_command_failure :
    volZoneState.volumePercentage = 40 ∧
    (pressRight sampleEnv false volZoneState).1.volumePercentage = 50 ∧
    ((50 : Int) = 40 → False) := by
  refine ⟨rfl, ?_, by decide⟩
  decide

/-- C2 amended: a Right press on the Volume zone updates the in memory
volume first and then fires setVolume with the new value; the popen result
is only logged.  With volume 40 and step 10, two Right presses call
setVolume with 50 then 60 and the in memory volume becomes 60 whatever the
two command outcomes are. -/
theorem volume_right_press_optimistic (env : MenuEnv) (ok1 ok2 : Bool)
    (s : MenuState) (hz : zoneAt env s.menuItem = MenuType.volume)
    (hstep : env.stepVolume = 10) (hv : s.volumePercentage = 40) :
    (pressRight env ok1 s).2 = [ShellCall.setVolumeCmd 50] ∧
    (pressRight env ok2 (pressRight env ok1 s).1).2 =
      [ShellCall.setVolumeCmd 60] ∧
    (pressRight env ok2 (pressRight env ok1 s).1).1.volumePercentage = 60 := by
  simp [pressRight, hz, hstep, hv, percentStepUp]

/-- Witness for volume_right_press_optimistic with both commands failing. -/
theorem volume_right_press_optimistic_witness :
    (pressRight sampleEnv false volZoneState).2 =
      [ShellCall.setVolumeCmd 50] ∧
    (pressRight sampleEnv false
        (pressRight sampleEnv false volZoneState).1).2 =
      [ShellCall.setVolumeCmd 60] ∧
    (pressRight sampleEnv false
        (pressRight sampleEnv false volZoneState).1).1.volumePercentage =
      60 :=
  volume_right_press_optimistic sampleEnv false false volZoneState rfl rfl rfl

/-- Stepping a percentage down stays in [0, 100]. -/
lemma percentStepDown_range (step v : Int) (hstep : 0 ≤ step)
    (h0 : 0 ≤ v) (h1 : v ≤ 100) :
    0 ≤ percentStepDown step v ∧ percentStepDown step v ≤ 100 := by
  unfold percentStepDown; split <;> omega

/-- Stepping a percentage up stays in [0, 100]. -/
lemma percentStepUp_range (step v : Int) (hstep : 0 ≤ step)
    (h0 : 0 ≤ v) (h1 : v ≤ 100) :
    0 ≤ percentStepUp step v ∧ percentStepUp step v ≤ 100 := by
  unfold percentStepUp; split <;> omega

/-- Wrapping decrement keeps the index below the count. -/
lemma wrapPrev_lt (n i : Nat) (hn : 0 < n) (h : i < n) : wrapPrev n i < n := by
  unfold wrapPrev; split <;> omega

/-- One Left or Right press preserves the range invariant, whatever the
popen outcome of the fired command is. -/
lemma applyAdjust_range (env : MenuEnv) (hV : 0 ≤ env.stepVolume)
    (hB : 0 ≤ env.stepBrightness) (s : MenuState) (hs : rangeInv s)
    (k : AdjustKey × Bool) : rangeInv (applyAdjust env s k) := by
  obtain ⟨hv0, hv1, hb0, hb1, hslot⟩ := hs
  obtain ⟨k, ok⟩ := k
  cases k
  case leftKey =>
    show rangeInv (pressLeft env ok s).1
    rcases hz : zoneAt env s.menuItem <;>
      simp only [pressLeft, hz, rangeInv] <;>
      refine ⟨?_, ?_, ?_, ?_, ?_⟩ <;>
      first
        | assumption
        | exact (percentStepDown_range _ _ hV hv0 hv1).1
        | exact (percentStepDown_range _ _ hV hv0 hv1).2
        | exact (percentStepDown_range _ _ hB hb0 hb1).1
        | exact (percentStepDown_range _ _ hB hb0 hb1).2
        | exact wrapPrev_lt _ _ (by unfold maxSaveSlots; omega) hslot
  case rightKey =>
    show rangeInv (pressRight env ok s).1
    rcases hz : zoneAt env s.menuItem <;>
      simp only [pressRight, hz, rangeInv] <;>
      refine ⟨?_, ?_, ?_, ?_, ?_⟩ <;>
      first
        | assumption
        | exact (percentStepUp_range _ _ hV hv0 hv1).1
        | exact (percentStepUp_range _ _ hV hv0 hv1).2
        | exact (percentStepUp_range _ _ hB hb0 hb1).1
        | exact (percentStepUp_range _ _ hB hb0 hb1).2
        | exact Nat.mod_lt _ (by unfold maxSaveSlots; omega)

/-- C5: starting from volume and brightness percentages in [0, 100] and a
save slot below MAX_SAVE_SLOTS, every sequence of Left and Right presses,
with arbitrary success or failure of each fired external command, keeps
the percentages in [0, 100] and the slot below MAX_SAVE_SLOTS. -/
theorem adjust_sequence_range_invariant (env : MenuEnv)
    (hV : 0 ≤ env.stepVolume) (hB : 0 ≤ env.stepBrightness)
    (ks : List (AdjustKey × Bool)) (s : MenuState) (hs : rangeInv s) :
    rangeInv (applyAdjustList env ks s) := by
  induction ks generalizing s with
  | nil => exact hs
  | cons k ks ih =>
      exact ih (applyAdjust env s k) (applyAdjust_range env hV hB s hs k)

/-- Witness for adjust_sequence_range_invariant: three presses with a
failing command in the middle. -/
theorem adjust_sequence_range_invariant_witness :
    rangeInv (applyAdjustList sampleEnv
      [(AdjustKey.rightKey, true), (AdjustKey.leftKey, false),
       (AdjustKey.leftKey, true)] baseState) :=
  adjust_sequence_range_invariant sampleEnv (by decide) (by decide)
    [(AdjustKey.rightKey, true), (AdjustKey.leftKey, false),
     (AdjustKey.leftKey, true)] baseState (by decide)

/-- C3: on a frame with a scroll in progress or just started the offset
advances by min(SCROLL_SPEED_PX, MENU_ZONE_HEIGHT - abs(offset)) in the
direction sign, so the magnitude strictly grows and never passes 240; in
the frame in which the magnitude reaches 240 the previous item becomes the
current item and the offset is reset to 0, and otherwise the previous item
is untouched. -/
theorem scroll_advance_monotonic_and_commits (s : MenuState) :
    (0 ≤ s.scroll → s.scroll < 240 →
      (0 < s.scroll ∨ 0 < s.startScroll) →
      s.scroll < s.scroll + min scrollSpeedPx (menuZoneHeight - s.scroll) ∧
      s.scroll + min scrollSpeedPx (menuZoneHeight - s.scroll) ≤ 240 ∧
      (s.scroll + min scrollSpeedPx (menuZoneHeight - s.scroll) < 240 →
        (scrollTick s).scroll =
          s.scroll + min scrollSpeedPx (menuZoneHeight - s.scroll) ∧
        (scrollTick s).prevItem = s.prevItem) ∧
      (s.scroll + min scrollSpeedPx (menuZoneHeight - s.scroll) = 240 →
        (scrollTick s).scroll = 0 ∧
        (scrollTick s).prevItem = s.menuItem)) ∧
    (s.scroll ≤ 0 → -240 < s.scroll → s.startScroll ≤ 0 →
      (s.scroll < 0 ∨ s.startScroll < 0) →
      s.scroll - min scrollSpeedPx (menuZoneHeight + s.scroll) < s.scroll ∧
      -240 ≤ s.scroll - min scrollSpeedPx (menuZoneHeight + s.scroll) ∧
      (-240 < s.scroll - min scrollSpeedPx (menuZoneHeight + s.scroll) →
        (scrollTick s).scroll =
          s.scroll - min scrollSpeedPx (menuZoneHeight + s.scroll) ∧
        (scrollTick s).prevItem = s.prevItem) ∧
      (s.scroll - min scrollSpeedPx (menuZoneHeight + s.scroll) = -240 →
        (scrollTick s).scroll = 0 ∧
        (scrollTick s).prevItem = s.menuItem)) := by
  unfold scrollTick scrollSpeedPx menuZoneHeight
  constructor
  · intro h0 h1 hdir
    rw [if_pos hdir]
    refine ⟨by omega, by omega, ?_, ?_⟩
    · intro hlt
      rw [if_neg (by dsimp only; omega)]
      exact ⟨rfl, rfl⟩
    · intro heq
      rw [if_pos (by dsimp only; omega)]
      exact ⟨rfl, rfl⟩
  · intro h0 h1 h2 hdir
    rw [if_neg (show ¬(0 < s.scroll ∨ 0 < s.startScroll) by omega),
      if_pos hdir]
    refine ⟨by omega, by omega, ?_, ?_⟩
    · intro hlt
      rw [if_neg (by dsimp only; omega)]
      exact ⟨rfl, rfl⟩
    · intro heq
      rw [if_pos (by dsimp only; omega)]
      exact ⟨rfl, rfl⟩

/-- Witness for scroll_advance_monotonic_and_commits: a downward scroll at
offset 210 advances to 240 and commits in the same frame. -/
theorem scroll_advance_monotonic_and_commits_witness :
    (scrollTick { baseState with scroll := 210, menuItem := 1 }).scroll = 0 ∧
    (scrollTick { baseState with scroll := 210, menuItem := 1 }).prevItem
      = 1 := by
  have h := (scroll_advance_monotonic_and_commits
    { baseState with scroll := 210, menuItem := 1 }).1
    (by decide) (by decide) (Or.inl (by decide))
  exact h.2.2.2 (by decide)

/-- C4: with USB sharing off, Down from the last zone wraps the index to 0
and Up from index 0 wraps to the last index; in both directions, if the
landing zone is the USB zone while USB data is not connected, the index
takes one more step in the same direction, wrapping again when that step
leaves the list; in every case the confirmation flag is cleared and a
scroll in the pressed direction begins. -/
theorem updown_wrap_and_usb_skip (env : MenuEnv) (s : MenuState)
    (hshare : s.usbSharing = false) (hn : 1 ≤ env.zones.length) :
    (s.menuItem = env.zones.length - 1 →
      (pressDown env s).menuConfirmation = false ∧
      (pressDown env s).startScroll = 1 ∧
      (zoneAt env 0 = MenuType.usb ∧ s.usbDataConnected = false →
        (pressDown env s).menuItem =
          if env.zones.length ≤ 1 then 0 else 1) ∧
      (¬(zoneAt env 0 = MenuType.usb ∧ s.usbDataConnected = false) →
        (pressDown env s).menuItem = 0)) ∧
    (s.menuItem = 0 →
      (pressUp env s).menuConfirmation = false ∧
      (pressUp env s).startScroll = -1 ∧
      (zoneAt env (env.zones.length - 1) = MenuType.usb ∧
          s.usbDataConnected = false →
        (pressUp env s).menuItem =
          if env.zones.length = 1 then 0 else env.zones.length - 2) ∧
      (¬(zoneAt env (env.zones.length - 1) = MenuType.usb ∧
          s.usbDataConnected = false) →
        (pressUp env s).menuItem = env.zones.length - 1)) := by
  constructor
  · intro hitem
    have hm1 : nextIndexDown env.zones.length s.menuItem = 0 := by
      unfold nextIndexDown; rw [hitem]; split <;> omega
    simp only [pressDown, hshare, Bool.false_eq_true, if_false, hm1]
    refine ⟨trivial, trivial, ?_, ?_⟩
    · intro hskip
      rw [if_pos hskip]
      unfold nextIndexDown
      split <;> omega
    · intro hskip
      rw [if_neg hskip]
  · intro hitem
    have hm1 : nextIndexUp env.zones.length s.menuItem =
        env.zones.length - 1 := by
      unfold nextIndexUp; rw [hitem]; simp
    simp only [pressUp, hshare, Bool.false_eq_true, if_false, hm1]
    refine ⟨trivial, trivial, ?_, ?_⟩
    · intro hskip
      rw [if_pos hskip]
      unfold nextIndexUp
      split <;> (try split) <;> omega
    · intro hskip
      rw [if_neg hskip]

/-- Witness for updown_wrap_and_usb_skip: with the sample zone list, Down
from index 10 lands on index 0 and Up from index 0 lands on index 10
(neither landing zone is the USB zone). -/
theorem updown_wrap_and_usb_skip_witness :
    (pressDown sampleEnv lastZoneState).menuItem = 0 ∧
    (pressUp sampleEnv baseState).menuItem = 10 := by
  have h1 := updown_wrap_and_usb_skip sampleEnv lastZoneState rfl (by decide)
  have h2 := updown_wrap_and_usb_skip sampleEnv baseState rfl (by decide)
  exact ⟨(h1.1 rfl).2.2.2 (by decide), (h2.2 rfl).2.2.2 (by decide)⟩

/-- Truncated scaling by a factor bounded by 100 never exceeds the base. -/
lemma mul_div_hundred_le (n q : Nat) (hq : q ≤ 100) : n * q / 100 ≤ n := by
  calc n * q / 100 ≤ n * 100 / 100 :=
        Nat.div_le_div_right (Nat.mul_le_mul_left n hq)
    _ = n := Nat.mul_div_cancel n (by omega)

/-- C6: draw_progress_bar clamps the percentage to at most 100, keeps the
clamped position and size inside the destination surface, clamps the bar
count to the maximum count fitting the clamped width with line width 1 and
padding ratio 3, computes the full bar count as
nbBars * percentage / 100 with truncating division, and draws that many
solid bars followed by nbBars - nbFullBars hollow outlined bars. -/
theorem progress_bar_layout_spec (sw sh x y w h p nb : Nat)
    (hsw : 1 ≤ sw) (hsh : 1 ≤ sh) (L : BarLayout)
    (hL : L = draw_progress_bar_calc sw sh x y w h p nb) :
    L.percentage = min p 100 ∧
    L.x + 1 ≤ sw ∧ L.y + 1 ≤ sh ∧
    L.x + L.width + 1 ≤ sw ∧ L.y + L.height + 1 ≤ sh ∧
    L.nbBars = min nb ((L.width * 3 / 3 + 1) / 4) ∧
    L.nbFullBars = L.nbBars * L.percentage / 100 ∧
    L.nbFullBars ≤ L.nbBars ∧
    (solidBars L).length = L.nbFullBars ∧
    (hollowBars L).length = L.nbBars - L.nbFullBars := by
  subst hL
  unfold draw_progress_bar_calc
  dsimp only
  refine ⟨?_, ?_, ?_, ?_, ?_, ?_, rfl, ?_, ?_, ?_⟩
  · simp only [Nat.min_def]
    split_ifs <;> omega
  · split <;> omega
  · split <;> omega
  · split <;> split <;> split <;> omega
  · split <;> split <;> split <;> omega
  · simp only [Nat.min_def]
    split_ifs <;> omega
  · apply mul_div_hundred_le
    split <;> omega
  · simp [solidBars]
  · simp [hollowBars]

/-- Witness for progress_bar_layout_spec at the actual volume bar call: a
240 by 240 surface, a 100 by 20 bar, 10 bars, volume 50 percent. -/
theorem progress_bar_layout_spec_witness :
    (draw_progress_bar_calc 240 240 70 128 100 20 50 10).nbFullBars =
      (draw_progress_bar_calc 240 240 70 128 100 20 50 10).nbBars *
        (draw_progress_bar_calc 240 240 70 128 100 20 50 10).percentage /
        100 ∧
    (solidBars (draw_progress_bar_calc 240 240 70 128 100 20 50 10)).length =
      (draw_progress_bar_calc 240 240 70 128 100 20 50 10).nbFullBars := by
  have hh := progress_bar_layout_spec 240 240 70 128 100 20 50 10
    (by decide) (by decide) (draw_progress_bar_calc 240 240 70 128 100 20 50 10)
    rfl
  exact ⟨hh.2.2.2.2.2.2.1, hh.2.2.2.2.2.2.2.2.1⟩

end FunKey
